import Mathlib

/-
Verification of the webpack packaging module (crates/wasm-build-support/src/webpack.rs).

The module is embedded shallowly:
- External process spawns (the yarn probe, the webpack probe, the install
  invocation, the bundler invocation) are modelled by a `SpawnOutcome` supplied
  through an environment record: either the spawn succeeded with a captured
  `Output` (exit status, stdout, stderr), or it failed with an OS error kind.
- Rust io::ErrorKind is modelled by `OsErrorKind`: `notFound` for
  io::ErrorKind::NotFound and `other s` for every other kind.
- The filesystem is an association list from paths to file contents;
  File::create truncates (writes the empty string) and write_all replaces the
  content, mirroring create-then-write-then-flush.  Injected write faults model
  I/O failures of create / write_all / flush.
- Paths are a prefix flag (absolute or not) plus a list of normal components,
  with Rust's with_file_name, parent and join ([a, b].iter().collect()).
- panic! and .unwrap() are modelled by a dedicated `Outcome.panic` result
  carrying the panic message, distinct from returned `Err` values.
- println! output is collected into a `printed` list.
-/

set_option autoImplicit false
set_option maxRecDepth 16384

namespace Webpack

/-- io::ErrorKind, split exactly as the source splits it: NotFound versus
everything else. -/
inductive OsErrorKind where
| notFound
| other (tag : String)
deriving DecidableEq, Repr

/-- The captured result of a successful process spawn:
output.status.success(), stdout, stderr. -/
structure Output where
  success : Bool
  stdout : String
  stderr : String
deriving DecidableEq, Repr

/-- Outcome of Command::output(): Ok(output) or Err(io error). -/
inductive SpawnOutcome where
| ok (out : Output)
| err (e : OsErrorKind)
deriving DecidableEq, Repr

/-- util::Error, the error type of the prompt collaborator (kept opaque: a tag). -/
structure UtilError where
  tag : String
deriving DecidableEq, Repr

/-- The Error enum of webpack.rs, variant for variant.  io::Error payloads are
modelled by their kind. -/
inductive Error where
| YarnMissing
| YarnCommandError (e : OsErrorKind)
| PromptError (e : UtilError)
| WebpackMissing
| WebpackCommandError (e : OsErrorKind)
| InstallFailed
| InstallCommandError (e : OsErrorKind)
| PackageFailed
| PackageCommandError (e : OsErrorKind)
| WriteJsIndexError (e : OsErrorKind)
| WriteHtmlIndexError (e : OsErrorKind)
deriving DecidableEq, Repr

/-- How a function invocation ends: a returned Ok value, a returned Err value,
or a panic (panic! or .unwrap() on a failure), which aborts the process and is
never returned to the caller. -/
inductive Outcome (α : Type) where
| ok (a : α)
| error (e : Error)
| panic (msg : String)
deriving DecidableEq, Repr

/-- const YARN_MISSING of webpack.rs. -/
def YARN_MISSING : String :=
  "No installation of yarn found. yarn is required to install webpack. https://yarnpkg.com/"

/-- const WEBPACK_INSTALL_PROMPT of webpack.rs. -/
def WEBPACK_INSTALL_PROMPT : String :=
  "No installation of webpack found. Do you want to install webpack? (y/n)"

/-- Rust panic message of Result::unwrap on an Err value. -/
def unwrapErrMsg : String :=
  "called Result::unwrap() on an Err value"

/-- Rust panic message of Option::unwrap on a None value. -/
def unwrapNoneMsg : String :=
  "called Option::unwrap() on a None value"

/-- Ambient world of install_if_required: the outcome of each process spawn it
may perform and the answer of the prompt collaborator. -/
structure Env where
  yarnProbe : SpawnOutcome
  webpackProbe : SpawnOutcome
  promptResult : Except UtilError Bool
  installSpawn : SpawnOutcome
deriving Repr

/-- Result of running install_if_required: its outcome, how often the
interactive confirmation primitive was invoked, and what was printed. -/
structure RunResult (α : Type) where
  result : Outcome α
  promptCalls : Nat
  printed : List String
deriving DecidableEq, Repr

/-- fn install() of webpack.rs: spawn yarn global add webpack webpack-cli; on
exit success return Ok, on exit failure print stderr and return
Err(InstallFailed), on spawn failure return Err(InstallCommandError). Paired
with the list of printed lines. -/
def install (env : Env) : Except Error Unit × List String :=
  match env.installSpawn with
  | .ok output =>
    match output.success with
    | true => (.ok (), [])
    | false => (.error .InstallFailed, [output.stderr])
  | .err e => (.error (.InstallCommandError e), [])

/-- The install().unwrap() step of install_if_required: a returned Err panics. -/
def installUnwrap (env : Env) (calls : Nat) : RunResult Unit :=
  match install env with
  | (.ok _, out) => ⟨.ok (), calls, out⟩
  | (.error _, out) => ⟨.panic unwrapErrMsg, calls, out⟩

/-- pub fn install_if_required(skip_prompt: bool) of webpack.rs.
Yarn probe: Err(NotFound) panics with YARN_MISSING, any other Err returns
YarnCommandError, Ok falls through.  Webpack probe: Err(NotFound) enters the
prompt/install branch, any other Err returns WebpackCommandError, Ok returns
Ok(()).  In the prompt/install branch: skip_prompt short-circuits the prompt;
a prompt failure returns PromptError; a yes runs install().unwrap(); a no
returns WebpackCommandError(e). -/
def install_if_required (skip_prompt : Bool) (env : Env) : RunResult Unit :=
  match env.yarnProbe with
  | .err e =>
    match e with
    | .notFound => ⟨.panic YARN_MISSING, 0, []⟩
    | _ => ⟨.error (.YarnCommandError e), 0, []⟩
  | .ok _ =>
    match env.webpackProbe with
    | .err e =>
      match e with
      | .notFound =>
        if skip_prompt then
          installUnwrap env 0
        else
          match env.promptResult with
          | .error pe => ⟨.error (.PromptError pe), 1, []⟩
          | .ok true => installUnwrap env 1
          | .ok false => ⟨.error (.WebpackCommandError e), 1, []⟩
      | _ => ⟨.error (.WebpackCommandError e), 0, []⟩
    | .ok _ => ⟨.ok (), 0, []⟩

/-- The empty string (the file-name argument of with_file_name in package_bin). -/
def emptyStr : String :=
  ""

/-- A filesystem path: whether it is absolute, and its list of normal
components (the claims only involve paths of normal components). -/
structure RPath where
  absolute : Bool
  comps : List String
deriving DecidableEq, Repr

/-- Path::file_name() is Some exactly when there is a last normal component. -/
def RPath.hasFileName (p : RPath) : Bool :=
  !p.comps.isEmpty

/-- Path::with_file_name(name): pop the file name when there is one, then push
name (pushing the empty string adds no component). -/
def RPath.withFileName (p : RPath) (name : String) : RPath :=
  let base := if p.hasFileName then { p with comps := p.comps.dropLast } else p
  if name = emptyStr then base else { base with comps := base.comps ++ [name] }

/-- Path::parent(): None for the empty path and for the bare root, otherwise
the path with its last component removed. -/
def RPath.parent (p : RPath) : Option RPath :=
  if p.comps.isEmpty then none else some { p with comps := p.comps.dropLast }

/-- [dir, Path::new(name)].iter().collect(): append one relative component. -/
def RPath.join (p : RPath) (name : String) : RPath :=
  { p with comps := p.comps ++ [name] }

/-- In-memory filesystem: a store from paths to contents. -/
abbrev FS := RPath → Option String

/-- Overwrite the content stored at path p. -/
def fsWrite (fs : FS) (p : RPath) (c : String) : FS :=
  fun q => if q = p then some c else fs q

/-- Content stored at path p, if any. -/
def fsRead (fs : FS) (p : RPath) : Option String :=
  fs p

/-- The empty filesystem. -/
def emptyFS : FS :=
  fun _ => none

/-- Injected I/O faults for one templated-file write: File::create, write_all
and flush may each fail with an OS error. -/
structure WriteFaults where
  createErr : Option OsErrorKind
  writeErr : Option OsErrorKind
  flushErr : Option OsErrorKind
deriving DecidableEq, Repr

/-- No injected faults: every file operation succeeds. -/
def noFaults : WriteFaults :=
  ⟨none, none, none⟩

/-- The fixed file name index.js. -/
def indexJsName : String :=
  "index.js"

/-- The .js extension. -/
def jsExt : String :=
  ".js"

/-- The .html extension. -/
def htmlExt : String :=
  ".html"

/-- Text of the js index template before the target name hole. -/
def jsPre : String :=
  "\n        void async function () \x7b\n            const js = await import(\"./"

/-- Text of the js index template after the target name hole. -/
def jsPost : String :=
  "\");\n            js.web_main()\n        \x7d();\n        "

/-- The content format!-ted by create_js_index: one hole for the target name. -/
def jsIndexContent (target_name : String) : String :=
  jsPre ++ target_name ++ jsPost

/-- Text of the html index template before the target name hole. -/
def htmlPre : String :=
  "\n        <html>\n            <head>\n                <meta content=\"text/html;charset=utf-8\" http-equiv=\"Content-Type\"/>\n            </head>\n            <body>\n                <script src=\x27./"

/-- Text of the html index template after the target name hole. -/
def htmlPost : String :=
  ".js\x27></script>\n            </body>\n        </html>"

/-- The content format!-ted by create_html_index: one hole for the target name. -/
def htmlIndexContent (target_name : String) : String :=
  htmlPre ++ target_name ++ htmlPost

/-- fn create_js_index(target_name, dir) of webpack.rs: File::create
dir/index.js (truncating), write_all the templated content, flush.  Every
failure is wrapped in Error::WriteHtmlIndexError, exactly as in the source
(lines 131, 134, 135), even though the write is of the js index. -/
def create_js_index (target_name : String) (dir : RPath) (faults : WriteFaults)
    (fs : FS) : Except Error FS :=
  let content := jsIndexContent target_name
  let js_path := dir.join indexJsName
  match faults.createErr with
  | some e => .error (.WriteHtmlIndexError e)
  | none =>
    let fs1 := fsWrite fs js_path emptyStr
    match faults.writeErr with
    | some e => .error (.WriteHtmlIndexError e)
    | none =>
      let fs2 := fsWrite fs1 js_path content
      match faults.flushErr with
      | some e => .error (.WriteHtmlIndexError e)
      | none => .ok fs2

/-- fn create_html_index(target_name, dir) of webpack.rs: File::create
dir/<target_name>.html (truncating), write_all the templated content, flush.
Every failure is wrapped in Error::WriteHtmlIndexError. -/
def create_html_index (target_name : String) (dir : RPath) (faults : WriteFaults)
    (fs : FS) : Except Error FS :=
  let content := htmlIndexContent target_name
  let html_path := dir.join (target_name ++ htmlExt)
  match faults.createErr with
  | some e => .error (.WriteHtmlIndexError e)
  | none =>
    let fs1 := fsWrite fs html_path emptyStr
    match faults.writeErr with
    | some e => .error (.WriteHtmlIndexError e)
    | none =>
      let fs2 := fsWrite fs1 html_path content
      match faults.flushErr with
      | some e => .error (.WriteHtmlIndexError e)
      | none => .ok fs2

/-- Ambient world of package_bin: faults for the js index write, the outcome of
the bundler spawn, faults for the html index write. -/
structure PkgEnv where
  jsFaults : WriteFaults
  webpackSpawn : SpawnOutcome
  htmlFaults : WriteFaults
deriving DecidableEq, Repr

/-- Result of running package_bin: its outcome, the filesystem afterwards, and
what was printed. -/
structure PkgResult where
  result : Outcome RPath
  fs : FS
  printed : List String

/-- pub fn package_bin(target_name, path) of webpack.rs.
build_dir = path.with_file_name(""); write the js index into build_dir
(propagating its error); out_dir = build_dir.parent().unwrap() (a panic when
there is no parent); out_file = out_dir/<target_name>.js; run the bundler:
on exit success print stdout and continue, on exit failure return
Err(PackageFailed), on spawn failure return Err(PackageCommandError); write the
html index into out_dir (propagating its error); return Ok(out_file). -/
def package_bin (target_name : String) (path : RPath) (env : PkgEnv)
    (fs : FS) : PkgResult :=
  let build_dir := path.withFileName emptyStr
  match create_js_index target_name build_dir env.jsFaults fs with
  | .error e => ⟨.error e, fs, []⟩
  | .ok fs1 =>
    match build_dir.parent with
    | none => ⟨.panic unwrapNoneMsg, fs1, []⟩
    | some out_dir =>
      let out_file := out_dir.join (target_name ++ jsExt)
      match env.webpackSpawn with
      | .ok output =>
        match output.success with
        | true =>
          match create_html_index target_name out_dir env.htmlFaults fs1 with
          | .error e => ⟨.error e, fs1, [output.stdout]⟩
          | .ok fs2 => ⟨.ok out_file, fs2, [output.stdout]⟩
        | false => ⟨.error .PackageFailed, fs1, []⟩
      | .err e => ⟨.error (.PackageCommandError e), fs1, []⟩

/-- The substring naming the package manager inside YARN_MISSING. -/
def yarnName : String :=
  "yarn"

/-- The install pointer inside YARN_MISSING. -/
def yarnUrl : String :=
  "https://yarnpkg.com/"

/-- YARN_MISSING up to its first occurrence of the package-manager name. -/
def ymPre1 : String :=
  "No installation of "

/-- YARN_MISSING after the first occurrence of the package-manager name. -/
def ymPost1 : String :=
  " found. yarn is required to install webpack. https://yarnpkg.com/"

/-- YARN_MISSING up to the install pointer. -/
def ymPre2 : String :=
  "No installation of yarn found. yarn is required to install webpack. "

/-- The directory component named build. -/
def buildDirName : String :=
  "build"

/-- The script tag of the html template, before the target name. -/
def scriptSrcPre : String :=
  "<script src=\x27./"

/-- The script tag of the html template, after the target name. -/
def scriptSrcPost : String :=
  ".js\x27></script>"

/-- The html template before its script tag. -/
def htmlBodyPre : String :=
  "\n        <html>\n            <head>\n                <meta content=\"text/html;charset=utf-8\" http-equiv=\"Content-Type\"/>\n            </head>\n            <body>\n                "

/-- The html template after its script tag. -/
def htmlBodyPost : String :=
  "\n            </body>\n        </html>"

/-- Stderr captured from a failing install process, for the concrete runs. -/
def boomStr : String :=
  "simulated install failure output"

/-- A concrete target name. -/
def appStr : String :=
  "app"

/-- A concrete output directory component. -/
def outStr : String :=
  "out"

/-- A concrete compiled-module file name. -/
def phStr : String :=
  "placeholder"

/-- A successful spawn with empty captured output. -/
def okSpawn : SpawnOutcome :=
  .ok ⟨true, emptyStr, emptyStr⟩

/-- Environment: yarn present, webpack absent, prompt answers yes, and the
install process spawns but exits with a failure status. -/
def envInstallFails : Env :=
  ⟨okSpawn, .err .notFound, .ok true, .ok ⟨false, emptyStr, boomStr⟩⟩

/-- Environment: yarn present, webpack absent, and the user declines the
install prompt. -/
def envDeclined : Env :=
  ⟨okSpawn, .err .notFound, .ok false, okSpawn⟩

theorem fsRead_write_self (fs : FS) (p : RPath) (c : String) :
    fsRead (fsWrite fs p c) p = some c := by
  simp [fsRead, fsWrite]

theorem fsRead_write_ne (fs : FS) (p q : RPath) (c : String) (h : p ≠ q) :
    fsRead (fsWrite fs q c) p = fsRead fs p := by
  simp [fsRead, fsWrite, h]

theorem parent_some_spec (d e : RPath) (h : d.parent = some e) :
    d.comps ≠ [] ∧ e.absolute = d.absolute ∧ e.comps = d.comps.dropLast := by
  unfold RPath.parent at h
  split at h
  · cases h
  · rename_i hc
    obtain hfe := Option.some.inj h
    exact ⟨by simpa using hc, by rw [← hfe], by rw [← hfe]⟩

theorem join_ne_of_parent (d e : RPath) (a b : String) (h : d.parent = some e) :
    d.join a ≠ e.join b := by
  obtain ⟨hne, _, hcomps⟩ := parent_some_spec d e h
  intro hab
  have hc := congrArg RPath.comps hab
  simp only [RPath.join] at hc
  have hlen := congrArg List.length hc
  rw [List.length_append, List.length_append, hcomps, List.length_dropLast] at hlen
  have hpos : 0 < d.comps.length := List.length_pos.mpr hne
  simp at hlen
  omega

theorem installUnwrap_promptCalls (env : Env) (n : Nat) :
    (installUnwrap env n).promptCalls = n := by
  unfold installUnwrap install
  cases hi : env.installSpawn with
  | ok o => cases ho : o.success <;> simp [hi, ho]
  | err e => simp [hi]

/-- Claim C1: with yarn present, webpack absent, installation approved and the
install process exiting with a failure status, install() itself prints the
captured stderr and produces Err(InstallFailed), but install_if_required does
not return that error to its caller: the install().unwrap() turns it into a
panic, so the run ends in a panic (with the stderr printed), not in a returned
typed error. -/
theorem install_failure_panics_not_returned :
    install envInstallFails = (.error .InstallFailed, [boomStr]) ∧
    install_if_required true envInstallFails = ⟨.panic unwrapErrMsg, 0, [boomStr]⟩ :=
  ⟨rfl, rfl⟩

/-- Claim C2: every injected I/O failure inside create_js_index — at
File::create, at write_all, or at flush of index.js — is returned wrapped in
the WriteHtmlIndexError variant, never in the WriteJsIndexError variant the
claim names. -/
theorem js_index_write_error_mistagged (e : OsErrorKind) (t : String)
    (d : RPath) (fs : FS) :
    create_js_index t d ⟨some e, none, none⟩ fs = .error (.WriteHtmlIndexError e) ∧
    create_js_index t d ⟨none, some e, none⟩ fs = .error (.WriteHtmlIndexError e) ∧
    create_js_index t d ⟨none, none, some e⟩ fs = .error (.WriteHtmlIndexError e) :=
  ⟨rfl, rfl, rfl⟩

/-- Claim C3: with yarn present, the webpack probe failing with NotFound,
skip_prompt = false and the user declining, install_if_required returns
Err(WebpackCommandError(NotFound)) — the OS-level command-error variant
wrapping the probe error — not a distinct declined-install error kind (the
WebpackMissing variant is never produced). -/
theorem declined_returns_command_error :
    install_if_required false envDeclined =
      ⟨.error (.WebpackCommandError .notFound), 1, []⟩ :=
  rfl

/-- Claim C4: when the js bootstrap write succeeds and the bundler spawns but
exits with a non-zero status, package_bin returns Err(PackageFailed) and the
html host page in out_dir is left untouched (its content is exactly what it
was before the call). -/
theorem package_failed_leaves_html_untouched (t : String) (path out_dir : RPath)
    (so se : String) (hf : WriteFaults) (fs : FS)
    (hpar : (path.withFileName emptyStr).parent = some out_dir) :
    (package_bin t path ⟨noFaults, .ok ⟨false, so, se⟩, hf⟩ fs).result
        = .error .PackageFailed ∧
    fsRead (package_bin t path ⟨noFaults, .ok ⟨false, so, se⟩, hf⟩ fs).fs
        (out_dir.join (t ++ htmlExt))
      = fsRead fs (out_dir.join (t ++ htmlExt)) := by
  have hne : (path.withFileName emptyStr).join indexJsName
      ≠ out_dir.join (t ++ htmlExt) :=
    join_ne_of_parent _ _ _ _ hpar
  constructor
  · simp [package_bin, create_js_index, noFaults, hpar]
  · simp only [package_bin, create_js_index, noFaults, hpar]
    rw [fsRead_write_ne _ _ _ _ (Ne.symm hne), fsRead_write_ne _ _ _ _ (Ne.symm hne)]

/-- Witness for claim C4 at a concrete input: path out/build/placeholder, a
bundler that exits non-zero, an empty filesystem. -/
theorem package_failed_leaves_html_untouched_witness :
    ((RPath.mk false [outStr, buildDirName, phStr]).withFileName emptyStr).parent
        = some (RPath.mk false [outStr]) ∧
    (package_bin appStr (RPath.mk false [outStr, buildDirName, phStr])
        ⟨noFaults, .ok ⟨false, emptyStr, emptyStr⟩, noFaults⟩ emptyFS).result
      = .error .PackageFailed :=
  ⟨by decide,
   (package_failed_leaves_html_untouched appStr
      (RPath.mk false [outStr, buildDirName, phStr]) (RPath.mk false [outStr])
      emptyStr emptyStr noFaults emptyFS (by decide)).1⟩

/-- Claim C5: the probe classification, for both tools.  A NotFound spawn
error is treated as tool-absent (yarn: the YARN_MISSING abort; webpack: the
prompt/install branch, here shown running install to success), any other OS
error is propagated as the tool's command error, and a successful spawn means
present regardless of the probed tool's exit status (the output payloads are
universally quantified). -/
theorem probe_classification :
    (∀ sk w p i, install_if_required sk ⟨.err .notFound, w, p, i⟩
        = ⟨.panic YARN_MISSING, 0, []⟩) ∧
    (∀ sk s w p i, install_if_required sk ⟨.err (.other s), w, p, i⟩
        = ⟨.error (.YarnCommandError (.other s)), 0, []⟩) ∧
    (∀ sk r r' p i, install_if_required sk ⟨.ok r, .ok r', p, i⟩
        = ⟨.ok (), 0, []⟩) ∧
    (∀ sk s r p i, install_if_required sk ⟨.ok r, .err (.other s), p, i⟩
        = ⟨.error (.WebpackCommandError (.other s)), 0, []⟩) ∧
    (∀ r p so se, install_if_required true ⟨.ok r, .err .notFound, p, .ok ⟨true, so, se⟩⟩
        = ⟨.ok (), 0, []⟩) :=
  ⟨fun _ _ _ _ => rfl, fun _ _ _ _ _ => rfl, fun _ _ _ _ _ => rfl,
   fun _ _ _ _ _ => rfl, fun _ _ _ _ => rfl⟩

/-- Claim C6: the interactive confirmation primitive is never invoked when
skip_prompt is true, and with skip_prompt false it is invoked exactly once
precisely when the yarn probe spawned successfully and the webpack probe
failed with NotFound. -/
theorem prompt_invocation_count :
    (∀ env : Env, (install_if_required true env).promptCalls = 0) ∧
    (∀ env : Env, (install_if_required false env).promptCalls =
      match env.yarnProbe, env.webpackProbe with
      | .ok _, .err .notFound => 1
      | _, _ => 0) := by
  constructor
  · intro env
    obtain ⟨y, w, p, i⟩ := env
    cases y with
    | err e => cases e <;> rfl
    | ok r =>
      cases w with
      | ok r' => rfl
      | err e =>
        cases e with
        | notFound => exact installUnwrap_promptCalls ⟨.ok r, .err .notFound, p, i⟩ 0
        | other s => rfl
  · intro env
    obtain ⟨y, w, p, i⟩ := env
    cases y with
    | err e => cases e <;> rfl
    | ok r =>
      cases w with
      | ok r' => rfl
      | err e =>
        cases e with
        | other s => rfl
        | notFound =>
          cases p with
          | error pe => rfl
          | ok answer =>
            cases answer with
            | true => exact installUnwrap_promptCalls ⟨.ok r, .err .notFound, .ok true, i⟩ 1
            | false => rfl

/-- Claim C7: when the yarn probe fails with NotFound, install_if_required
ends in a process abort (a panic carrying YARN_MISSING) rather than returning
an error value, and the abort message names yarn and points at its install
page. -/
theorem yarn_missing_aborts :
    (∀ sk w p i, install_if_required sk ⟨.err .notFound, w, p, i⟩
        = ⟨.panic YARN_MISSING, 0, []⟩) ∧
    YARN_MISSING = ymPre1 ++ yarnName ++ ymPost1 ∧
    YARN_MISSING = ymPre2 ++ yarnUrl ++ emptyStr :=
  ⟨fun _ _ _ _ => rfl, by decide, by decide⟩

/-- Claim C8: on a path of the form out_dir/build/<file>, with all writes
succeeding and the bundler exiting successfully, package_bin returns
out_dir/<target_name>.js (the parent of the parent of path joined with the
target script name), and afterwards out_dir/<target_name>.html holds the html
template, which contains a script tag referencing <target_name>.js. -/
theorem package_bin_success_path (t : String) (b : Bool) (od : List String)
    (f so se : String) (fs : FS) :
    (package_bin t ⟨b, od ++ [buildDirName, f]⟩
        ⟨noFaults, .ok ⟨true, so, se⟩, noFaults⟩ fs).result
      = .ok (RPath.join ⟨b, od⟩ (t ++ jsExt)) ∧
    fsRead (package_bin t ⟨b, od ++ [buildDirName, f]⟩
        ⟨noFaults, .ok ⟨true, so, se⟩, noFaults⟩ fs).fs
        (RPath.join ⟨b, od⟩ (t ++ htmlExt))
      = some (htmlIndexContent t) ∧
    htmlIndexContent t
      = htmlBodyPre ++ (scriptSrcPre ++ t ++ scriptSrcPost) ++ htmlBodyPost := by
  have hwf : (RPath.mk b (od ++ [buildDirName, f])).withFileName emptyStr
      = ⟨b, od ++ [buildDirName]⟩ := by
    simp [RPath.withFileName, RPath.hasFileName]
  have hpar : (RPath.mk b (od ++ [buildDirName])).parent = some ⟨b, od⟩ := by
    simp [RPath.parent]
  refine ⟨?_, ?_, ?_⟩
  · simp [package_bin, hwf, hpar, create_js_index, create_html_index, noFaults]
  · simp [package_bin, hwf, hpar, create_js_index, create_html_index, noFaults,
      fsRead, fsWrite]
  · have h1 : htmlPre = htmlBodyPre ++ scriptSrcPre := by decide
    have h2 : htmlPost = scriptSrcPost ++ htmlBodyPost := by decide
    show htmlPre ++ t ++ htmlPost = _
    rw [h1, h2]
    simp [String.append_assoc]

/-- Claim C9: both scaffolder operations succeed on any starting filesystem,
overwrite whatever was at the destination with exactly the templated content,
and running either twice with identical inputs leaves the destination with
content byte-for-byte identical to a single run. -/
theorem scaffolder_idempotent (t : String) (d : RPath) (fs : FS) :
    (∃ fs1 fs2,
      create_js_index t d noFaults fs = .ok fs1 ∧
      create_js_index t d noFaults fs1 = .ok fs2 ∧
      fsRead fs1 (d.join indexJsName) = some (jsIndexContent t) ∧
      fsRead fs2 (d.join indexJsName) = fsRead fs1 (d.join indexJsName)) ∧
    (∃ fs1 fs2,
      create_html_index t d noFaults fs = .ok fs1 ∧
      create_html_index t d noFaults fs1 = .ok fs2 ∧
      fsRead fs1 (d.join (t ++ htmlExt)) = some (htmlIndexContent t) ∧
      fsRead fs2 (d.join (t ++ htmlExt)) = fsRead fs1 (d.join (t ++ htmlExt))) := by
  constructor
  · refine ⟨_, _, rfl, rfl, ?_, ?_⟩
    · exact fsRead_write_self _ _ _
    · rw [fsRead_write_self, fsRead_write_self]
  · refine ⟨_, _, rfl, rfl, ?_, ?_⟩
    · exact fsRead_write_self _ _ _
    · rw [fsRead_write_self, fsRead_write_self]

/-- Claim C10: whenever path.with_file_name("") has no parent — a bare file
name or a root-level path — and the js bootstrap write itself succeeds,
package_bin neither returns Ok nor an Err value: the unwrap of the parent
computation panics. -/
theorem package_bin_panics_without_parent (t : String) (path : RPath)
    (w : SpawnOutcome) (hf : WriteFaults) (fs : FS)
    (h : (path.withFileName emptyStr).parent = none) :
    (package_bin t path ⟨noFaults, w, hf⟩ fs).result = .panic unwrapNoneMsg := by
  simp [package_bin, create_js_index, noFaults, h]

/-- Witness for claim C10 at a concrete input: the bare file name
placeholder. -/
theorem package_bin_panics_without_parent_witness :
    ((RPath.mk false [phStr]).withFileName emptyStr).parent = none ∧
    (package_bin appStr (RPath.mk false [phStr])
        ⟨noFaults, okSpawn, noFaults⟩ emptyFS).result = .panic unwrapNoneMsg :=
  ⟨by decide,
   package_bin_panics_without_parent appStr (RPath.mk false [phStr])
     okSpawn noFaults emptyFS (by decide)⟩

end Webpack
